import Mathlib

/-!
Verification development for a minimal content API (FastAPI + MongoDB):
blog-post read endpoints, a contact-message write endpoint, and a startup
seeder, over a document store that may be unavailable.

Shallow embedding conventions:
* A stored document is an association list of field name to `Value`
  (Python dicts have unique keys; lookup takes the first binding).
* The store handle `db` is `Option Store`: `none` models the global `db`
  being `None` (degraded mode), `some s` a reachable store.
* Datetimes are modelled as `Nat` timestamps.
* Fallible handler code returns `Except`; `HTTPException 404` is
  `ApiError.notFound`, a 500 is `ApiError.internal`.
-/

set_option autoImplicit false

/-- A JSON-ish value stored in a document field. -/
inductive Value where
  | str (s : String)
  | strList (l : List String)
  | bool (b : Bool)
  | time (t : Nat)
  | null
deriving DecidableEq, Repr

/-- A document: a Python dict from field names to values. -/
abbrev Doc := List (String × Value)

/-- First-binding association-list lookup, i.e. Python `d.get(k)` / `k in d`. -/
def docLookup : Doc → String → Option Value
  | [], _ => none
  | (k, v) :: rest, key => if k == key then some v else docLookup rest key

/-- The two logical collections of the persisted layout. -/
structure Store where
  blogpost : List Doc
  message : List Doc
deriving DecidableEq, Repr

/-- Documents of a named collection (unknown names hold nothing). -/
def collectionDocs (s : Store) (col : String) : List Doc :=
  if col == "blogpost" then s.blogpost
  else if col == "message" then s.message
  else []

/-- Modelled from the spec: `create(collectionName, record)` of the Document
Store Adapter (`database.py` is not under `src/`) inserts one document into
the named collection; the store keeps insertion order. -/
def create_document (s : Store) (col : String) (d : Doc) : Store :=
  if col == "blogpost" then { s with blogpost := s.blogpost ++ [d] }
  else if col == "message" then { s with message := s.message ++ [d] }
  else s

/-- Modelled from the spec: one filter pair of a store query matches a
document per the document database semantics — the stored field equals the
value, or the stored field is an array containing the value; a document
missing the field does not match. -/
def fieldMatches (d : Doc) (k : String) (v : Value) : Bool :=
  match docLookup d k with
  | none => false
  | some w =>
    (w == v) ||
    (match w, v with
     | .strList l, .str s => l.contains s
     | _, _ => false)

/-- A document matches a filter when every filter pair matches. -/
def matchesQuery (q : List (String × Value)) (d : Doc) : Bool :=
  q.all (fun kv => fieldMatches d kv.1 kv.2)

/-- Modelled from the spec: `query(collectionName, filter, limit)` of the
Document Store Adapter (`database.py` is not under `src/`) returns the
matching documents in store order, capped at `limit`. -/
def get_documents (s : Store) (col : String) (q : List (String × Value))
    (limit : Nat) : List Doc :=
  ((collectionDocs s col).filter (matchesQuery q)).take limit

/-- Modelled from the spec: the driver `find_one` returns the first matching
document in store order, or nothing. -/
def find_one (s : Store) (col : String) (q : List (String × Value)) :
    Option Doc :=
  (collectionDocs s col).find? (matchesQuery q)

/-- Output schema `BlogPostOut` of `main.py`. -/
structure BlogPostOut where
  title : String
  slug : String
  excerpt : Option String := none
  content : String
  cover_image : Option String := none
  tags : List String := []
  published : Bool := true
  published_at : Option Nat := none
  created_at : Option Nat := none
  updated_at : Option Nat := none
deriving DecidableEq, Repr

/-- The declared field names of `BlogPostOut` (`BlogPostOut.model_fields`). -/
def blogPostOutFields : List String :=
  ["title", "slug", "excerpt", "content", "cover_image", "tags",
   "published", "published_at", "created_at", "updated_at"]

/-- Parse a required `str` field. -/
def asStr : Option Value → Option String
  | some (.str s) => some s
  | _ => none

/-- Parse an `Optional[str]` field (absent or explicit `None` become `none`). -/
def asOptStr : Option Value → Option (Option String)
  | some (.str s) => some (some s)
  | some .null => some none
  | none => some none
  | _ => none

/-- Parse an `Optional[datetime]` field. -/
def asOptTime : Option Value → Option (Option Nat)
  | some (.time t) => some (some t)
  | some .null => some none
  | none => some none
  | _ => none

/-- Parse `tags: List[str] = []` (absent defaults to the empty list). -/
def asTags : Option Value → Option (List String)
  | some (.strList l) => some l
  | none => some []
  | _ => none

/-- Parse `published: bool = True` (absent defaults to `true`). -/
def asPub : Option Value → Option Bool
  | some (.bool b) => some b
  | none => some true
  | _ => none

/-- Pydantic validation of a dict against `BlogPostOut`
(`BlogPostOut(**dict)`): `none` models a raised validation error. -/
def parseBlogPostOut (d : Doc) : Option BlogPostOut :=
  (asStr (docLookup d "title")).bind fun title =>
  (asStr (docLookup d "slug")).bind fun slug =>
  (asOptStr (docLookup d "excerpt")).bind fun excerpt =>
  (asStr (docLookup d "content")).bind fun content =>
  (asOptStr (docLookup d "cover_image")).bind fun cover =>
  (asTags (docLookup d "tags")).bind fun tags =>
  (asPub (docLookup d "published")).bind fun published =>
  (asOptTime (docLookup d "published_at")).bind fun pa =>
  (asOptTime (docLookup d "created_at")).bind fun ca =>
  (asOptTime (docLookup d "updated_at")).bind fun ua =>
  some { title := title, slug := slug, excerpt := excerpt,
         content := content, cover_image := cover, tags := tags,
         published := published, published_at := pa,
         created_at := ca, updated_at := ua }

/-- The dict built by the handlers from a raw document:
`{**{k: v for k, v in d.items() if k in BlogPostOut.model_fields},
"created_at": d.get("created_at"), "updated_at": d.get("updated_at")}`.
The two explicit entries override the filtered dict, and `d.get` yields
`None` when the key is absent. -/
def projectDoc (d : Doc) : Doc :=
  ("created_at", (docLookup d "created_at").getD .null)
  :: ("updated_at", (docLookup d "updated_at").getD .null)
  :: d.filter (fun kv => blogPostOutFields.contains kv.1)

/-- The full store-document-to-output mapping used by both read handlers. -/
def toOut (d : Doc) : Option BlogPostOut :=
  parseBlogPostOut (projectDoc d)

/-- Map each raw document to the output shape, as the list comprehension in
`list_blogposts` does; a validation failure on any document aborts. -/
def mapDocs : List Doc → Option (List BlogPostOut)
  | [] => some []
  | d :: rest =>
    (toOut d).bind fun o => (mapDocs rest).bind fun os => some (o :: os)

/-- The hardcoded sample post returned by `list_blogposts` when `db is None`. -/
def sampleBlogPostList : BlogPostOut :=
  { title := "Building Strength in the City",
    slug := "building-strength-in-the-city",
    excerpt := some "My go-to routine for busy Londoners who want real results.",
    content := "Sample content",
    cover_image := some "https://images.unsplash.com/photo-1517836357463-d25dfeac3438?q=80&w=1600",
    tags := ["strength", "london", "training"],
    published := true }

/-- The hardcoded sample post returned by `get_blogpost` when `db is None`
and the slug matches. -/
def sampleBlogPostGet : BlogPostOut :=
  { title := "Building Strength in the City",
    slug := "building-strength-in-the-city",
    excerpt := some "My go-to routine for busy Londoners who want real results.",
    content := "Sample content",
    cover_image := some "https://images.unsplash.com/photo-1517836357463-d25dfeac3438?q=80&w=1600",
    tags := ["strength", "london", "training"],
    published := true }

/-- Handler failures: `HTTPException(404)` and a 500. -/
inductive ApiError where
  | notFound
  | internal
deriving DecidableEq, Repr

/-- The query dict built by `list_blogposts`: `q = {"published": True}`, and
`q["tags"] = tag` only when `tag` is truthy (so `None` and `""` add nothing). -/
def buildQuery (tag : Option String) : List (String × Value) :=
  match tag with
  | none => [("published", .bool true)]
  | some t =>
    if t == "" then [("published", .bool true)]
    else [("published", .bool true), ("tags", .str t)]

/-- `GET /api/blogposts` (`list_blogposts` in `main.py`). -/
def list_blogposts (db : Option Store) (tag : Option String) :
    Except ApiError (List BlogPostOut) :=
  match db with
  | none => .ok [sampleBlogPostList]
  | some s =>
    match mapDocs (get_documents s "blogpost" (buildQuery tag) 50) with
    | some outs => .ok outs
    | none => .error .internal

/-- `GET /api/blogposts/{slug}` (`get_blogpost` in `main.py`). -/
def get_blogpost (db : Option Store) (slug : String) :
    Except ApiError BlogPostOut :=
  match db with
  | none =>
    if slug == "building-strength-in-the-city" then .ok sampleBlogPostGet
    else .error .notFound
  | some s =>
    match find_one s "blogpost" [("slug", .str slug), ("published", .bool true)] with
    | none => .error .notFound
    | some d =>
      match toOut d with
      | some out => .ok out
      | none => .error .internal

/-- Raw JSON body of a `POST /api/contact` request, before validation
(each schema field either present with a string value or absent). -/
structure RawMessage where
  name : Option String
  email : Option String
  phone : Option String
  subject : Option String
  message : Option String
  source : Option String
deriving DecidableEq, Repr

/-- Modelled from the spec: `email` must be a "validated email format"
(`EmailStr`; the validator library is not part of `src/`). A string is
accepted when it splits as `local@domain` with a nonempty local part and a
domain that contains a dot neither at its start nor at its end. -/
def isValidEmail (s : String) : Bool :=
  let cs := s.toList
  let lp := cs.takeWhile (fun c => c != '@')
  match cs.dropWhile (fun c => c != '@') with
  | [] => false
  | _ :: dom =>
    !lp.isEmpty && !dom.isEmpty && !dom.contains '@' &&
    dom.contains '.' && !(dom.head? == some '.') && !(dom.getLast? == some '.')

/-- The fields of a raw body that violate the `Message` schema of
`schemas.py`: `name`, `email`, `message` required, `email` well-formed. -/
def messageErrors (r : RawMessage) : List String :=
  (if r.name.isNone then ["name"] else [])
  ++ (match r.email with
      | none => ["email"]
      | some e => if isValidEmail e then [] else ["email"])
  ++ (if r.message.isNone then ["message"] else [])

/-- Validated `Message` instance (`schemas.py`). -/
structure Message where
  name : String
  email : String
  phone : Option String
  subject : Option String
  message : String
  source : String
deriving DecidableEq, Repr

/-- Pydantic validation of the request body against `Message`, performed by
the framework before `submit_contact` runs: either a validated instance or a
`ValidationError` listing every offending field. `source` defaults to
`"website"`. -/
def validateMessage (r : RawMessage) : Except (List String) Message :=
  match r.name, r.email, r.message with
  | some n, some e, some m =>
    if isValidEmail e then
      .ok { name := n, email := e, phone := r.phone, subject := r.subject,
            message := m, source := r.source.getD "website" }
    else .error (messageErrors r)
  | _, _, _ => .error (messageErrors r)

/-- `msg.model_dump()`: the validated message as a document
(absent optionals dump as `None`). -/
def model_dump (m : Message) : Doc :=
  [("name", .str m.name), ("email", .str m.email),
   ("phone", match m.phone with | some p => .str p | none => .null),
   ("subject", match m.subject with | some x => .str x | none => .null),
   ("message", .str m.message), ("source", .str m.source)]

/-- Outcome of `POST /api/contact`: framework validation failure (422),
the success acknowledgment `{"status": "ok", ...}`, or the
`HTTPException(500)` raised when the insert throws. -/
inductive SubmitOutcome where
  | validationError (fields : List String)
  | success
  | serverError
deriving DecidableEq, Repr

/-- `POST /api/contact` (`submit_contact` in `main.py`), over a store whose
insert either succeeds or is rejected (`rejects`). Returns the outcome, the
resulting store handle, and how many `create_document` calls on the
`message` collection were attempted. -/
def submit_contact (db : Option Store) (rejects : Bool) (raw : RawMessage) :
    SubmitOutcome × Option Store × Nat :=
  match validateMessage raw with
  | .error fs => (.validationError fs, db, 0)
  | .ok m =>
    match db with
    | none => (.success, none, 0)
    | some s =>
      if rejects then (.serverError, some s, 1)
      else (.success, some (create_document s "message" (model_dump m)), 1)

/-- How the store behaves during seeding: the count query may throw, and
each of the successive inserts may throw. -/
structure SeedBehavior where
  countFails : Bool
  insertFails : Nat → Bool

/-- The fully successful store behavior. -/
def okBehavior : SeedBehavior :=
  { countFails := false, insertFails := fun _ => false }

/-- The fixed set of fixture posts inserted by the seeder (`samples` in
`seed_sample_blogposts`), with `published_at` set to the current time. -/
def sampleSeedDocs (now : Nat) : List Doc :=
  [[("title", .str "Building Strength in the City"),
    ("slug", .str "building-strength-in-the-city"),
    ("excerpt", .str "My go-to routine for busy Londoners who want real results."),
    ("content", .str ("Living in London means your schedule is packed. Here\x27s a 30-minute strength protocol " ++
      "you can do in any gym: 1) Compound lifts 2) Supersets 3) Finisher sled pushes. " ++
      "Track your progressive overload weekly.")),
    ("cover_image", .str "https://images.unsplash.com/photo-1517836357463-d25dfeac3438?q=80&w=1600"),
    ("tags", .strList ["strength", "london", "training"]),
    ("published", .bool true),
    ("published_at", .time now)],
   [("title", .str "Fueling for Performance: Simple Meal Guide"),
    ("slug", .str "fueling-for-performance"),
    ("excerpt", .str "A practical approach to macros while enjoying London food culture."),
    ("content", .str ("Nutrition shouldn\x27t be complicated. Focus on protein with every meal, " ++
      "colourful veg, and smart carbs around training windows. Here are my staple meals...")),
    ("cover_image", .str "https://images.unsplash.com/photo-1505252585461-04db1eb84625?q=80&w=1600"),
    ("tags", .strList ["nutrition", "performance"]),
    ("published", .bool true),
    ("published_at", .time now)]]

/-- The `for s in samples: create_document("blogpost", s)` loop, stopping at
the first insert the store rejects; returns the store as left by the side
effects so far, and whether an exception was raised. -/
def insertSeedLoop (beh : SeedBehavior) : List Doc → Nat → Store → Store × Bool
  | [], _, s => (s, false)
  | d :: rest, i, s =>
    if beh.insertFails i then (s, true)
    else insertSeedLoop beh rest (i + 1) (create_document s "blogpost" d)

/-- The startup seeder `seed_sample_blogposts` in `main.py`: returns on a
missing store handle, otherwise counts the `blogpost` collection and inserts
the fixtures when the count is zero; the whole body is wrapped in
`try/except Exception: pass`, so the second component — whether an exception
escapes to the caller — records what the `except` clause lets through. -/
def seed_sample_blogposts (beh : SeedBehavior) (now : Nat)
    (db : Option Store) : Option Store × Bool :=
  match db with
  | none => (none, false)
  | some s =>
    if beh.countFails then (some s, false)
    else if s.blogpost.length == 0 then
      (some (insertSeedLoop beh (sampleSeedDocs now) 0 s).1, false)
    else (some s, false)

/-! ### Helper lemmas about lookup, projection and parsing -/

theorem docLookup_filter (p : String → Bool) (d : Doc) (k : String)
    (hp : p k = true) :
    docLookup (d.filter (fun kv => p kv.1)) k = docLookup d k := by
  induction d with
  | nil => rfl
  | cons kv rest ih =>
    obtain ⟨k1, v1⟩ := kv
    by_cases h : (k1 == k) = true
    · have hk1 : k1 = k := eq_of_beq h
      subst hk1
      simp [List.filter_cons, hp, docLookup]
    · simp only [List.filter_cons]
      by_cases hq : p k1 = true
      · simp [hq, docLookup, h, ih]
      · simp only [Bool.not_eq_true] at hq
        simp [hq, docLookup, h, ih]

theorem docLookup_projectDoc_created (d : Doc) :
    docLookup (projectDoc d) "created_at"
      = some ((docLookup d "created_at").getD .null) := by
  simp [projectDoc, docLookup]

theorem docLookup_projectDoc_updated (d : Doc) :
    docLookup (projectDoc d) "updated_at"
      = some ((docLookup d "updated_at").getD .null) := by
  simp [projectDoc, docLookup]

theorem asOptTime_getD (o : Option Value) :
    asOptTime (some (o.getD .null)) = asOptTime o := by
  cases o with
  | none => rfl
  | some v => rfl

theorem docLookup_projectDoc_field (d : Doc) (k : String)
    (hk : blogPostOutFields.contains k = true)
    (h1 : (k == "created_at") = false) (h2 : (k == "updated_at") = false) :
    docLookup (projectDoc d) k = docLookup d k := by
  have h1n : (("created_at" : String) == k) = false := by
    rw [beq_eq_false_iff_ne]
    intro h
    subst h
    simp at h1
  have h2n : (("updated_at" : String) == k) = false := by
    rw [beq_eq_false_iff_ne]
    intro h
    subst h
    simp at h2
  unfold projectDoc
  simp only [docLookup, h1n, h2n, Bool.false_eq_true, if_false]
  exact docLookup_filter (fun s => blogPostOutFields.contains s) d k hk

theorem toOut_eq_parse (d : Doc) : toOut d = parseBlogPostOut d := by
  unfold toOut parseBlogPostOut
  rw [docLookup_projectDoc_field d "title" (by decide) (by decide) (by decide),
    docLookup_projectDoc_field d "slug" (by decide) (by decide) (by decide),
    docLookup_projectDoc_field d "excerpt" (by decide) (by decide) (by decide),
    docLookup_projectDoc_field d "content" (by decide) (by decide) (by decide),
    docLookup_projectDoc_field d "cover_image" (by decide) (by decide) (by decide),
    docLookup_projectDoc_field d "tags" (by decide) (by decide) (by decide),
    docLookup_projectDoc_field d "published" (by decide) (by decide) (by decide),
    docLookup_projectDoc_field d "published_at" (by decide) (by decide) (by decide),
    docLookup_projectDoc_created, docLookup_projectDoc_updated,
    asOptTime_getD, asOptTime_getD]

theorem parse_some_fields {d : Doc} {o : BlogPostOut}
    (h : parseBlogPostOut d = some o) :
    asTags (docLookup d "tags") = some o.tags ∧
    asPub (docLookup d "published") = some o.published ∧
    asOptTime (docLookup d "created_at") = some o.created_at ∧
    asOptTime (docLookup d "updated_at") = some o.updated_at := by
  unfold parseBlogPostOut at h
  simp only [Option.bind_eq_some] at h
  obtain ⟨t, ht, sl, hsl, ex, hex, c, hc, cv, hcv, tg, htg, pb, hpb,
    pa, hpa, ca, hca, ua, hua, hmk⟩ := h
  injection hmk with hmk
  subst hmk
  exact ⟨htg, hpb, hca, hua⟩

theorem mapDocs_length {ds : List Doc} {os : List BlogPostOut}
    (h : mapDocs ds = some os) : os.length = ds.length := by
  induction ds generalizing os with
  | nil =>
    simp only [mapDocs, Option.some.injEq] at h
    subst h
    rfl
  | cons d rest ih =>
    simp only [mapDocs, Option.bind_eq_some, Option.some.injEq] at h
    obtain ⟨o, ho, os2, hos2, hcons⟩ := h
    subst hcons
    simp [ih hos2]

theorem mapDocs_mem {ds : List Doc} {os : List BlogPostOut}
    (h : mapDocs ds = some os) {o : BlogPostOut} (ho : o ∈ os) :
    ∃ d ∈ ds, toOut d = some o := by
  induction ds generalizing os with
  | nil =>
    simp only [mapDocs, Option.some.injEq] at h
    subst h
    simp at ho
  | cons d rest ih =>
    simp only [mapDocs, Option.bind_eq_some, Option.some.injEq] at h
    obtain ⟨o1, ho1, os2, hos2, hcons⟩ := h
    subst hcons
    rcases List.mem_cons.mp ho with h | h
    · exact ⟨d, List.mem_cons_self d rest, h ▸ ho1⟩
    · obtain ⟨d2, hd2, hout⟩ := ih hos2 h
      exact ⟨d2, List.mem_cons_of_mem d hd2, hout⟩

theorem list_blogposts_ok {s : Store} {tag : Option String}
    {outs : List BlogPostOut} (h : list_blogposts (some s) tag = .ok outs) :
    mapDocs (get_documents s "blogpost" (buildQuery tag) 50) = some outs := by
  simp only [list_blogposts] at h
  cases h1 : mapDocs (get_documents s "blogpost" (buildQuery tag) 50) with
  | none => rw [h1] at h; exact absurd h (by simp)
  | some outs2 => rw [h1] at h; simp only [Except.ok.injEq] at h; rw [h]

theorem matchesQuery_mem {q : List (String × Value)} {d : Doc}
    (kv : String × Value) (h : matchesQuery q d = true) (hm : kv ∈ q) :
    fieldMatches d kv.1 kv.2 = true := by
  unfold matchesQuery at h
  exact List.all_eq_true.mp h kv hm

theorem fieldMatches_bool {d : Doc} {k : String} {b : Bool}
    (h : fieldMatches d k (.bool b) = true) :
    docLookup d k = some (.bool b) := by
  unfold fieldMatches at h
  cases hw : docLookup d k with
  | none => rw [hw] at h; exact absurd h (by simp)
  | some w =>
    rw [hw] at h
    cases w <;> simp_all [beq_iff_eq]

theorem fieldMatches_str {d : Doc} {k : String} {t : String}
    (h : fieldMatches d k (.str t) = true) :
    docLookup d k = some (.str t) ∨
      ∃ l, docLookup d k = some (.strList l) ∧ l.contains t = true := by
  unfold fieldMatches at h
  cases hw : docLookup d k with
  | none => rw [hw] at h; exact absurd h (by simp)
  | some w =>
    rw [hw] at h
    cases w with
    | str s => left; simp_all [beq_iff_eq]
    | strList l => right; exact ⟨l, rfl, by simp_all [beq_iff_eq]⟩
    | bool b => exact absurd h (by simp [beq_iff_eq])
    | time n => exact absurd h (by simp [beq_iff_eq])
    | null => exact absurd h (by simp [beq_iff_eq])

/-! ### Claim theorems -/

/-- C9: when the store is unavailable, `list_blogposts` returns the same
constant single-element list for every value of the tag argument — the tag
filter has no effect in degraded mode. -/
theorem c9_degraded_list_constant (tag : Option String) :
    list_blogposts none tag = .ok [sampleBlogPostList] := rfl

/-- C10: when the store is unavailable, the post returned by `get_blogpost`
for the slug `building-strength-in-the-city` is field-for-field equal to the
single post returned by `list_blogposts`. -/
theorem c10_degraded_get_eq_list :
    get_blogpost none "building-strength-in-the-city" = .ok sampleBlogPostGet ∧
    list_blogposts none none = .ok [sampleBlogPostList] ∧
    sampleBlogPostGet = sampleBlogPostList := by
  refine ⟨?_, rfl, rfl⟩
  unfold get_blogpost
  rw [if_pos (by decide)]

/-- C3: `get_blogpost` with the store unavailable returns the hardcoded
sample post exactly when the slug is `building-strength-in-the-city` and
fails with `NotFound` otherwise; with the store available it looks up by
`{slug, published: true}` and fails with `NotFound` when no document
matches. -/
theorem c3_get_blogpost_by_slug (slug : String) (s : Store) :
    (get_blogpost none slug = .ok sampleBlogPostGet ↔
      slug = "building-strength-in-the-city") ∧
    (slug ≠ "building-strength-in-the-city" →
      get_blogpost none slug = .error .notFound) ∧
    (find_one s "blogpost" [("slug", .str slug), ("published", .bool true)] = none →
      get_blogpost (some s) slug = .error .notFound) := by
  refine ⟨?_, ?_, ?_⟩
  · constructor
    · intro h
      by_cases hs : slug = "building-strength-in-the-city"
      · exact hs
      · unfold get_blogpost at h
        rw [if_neg (by simpa using hs)] at h
        exact absurd h (by simp)
    · intro h
      subst h
      unfold get_blogpost
      rw [if_pos (by decide)]
  · intro h
    unfold get_blogpost
    rw [if_neg (by simpa using h)]
  · intro h
    simp only [get_blogpost, h]

/-- C3 witness: a nonexistent slug yields `NotFound` in both modes. -/
theorem c3_witness :
    get_blogpost none "nonexistent-slug" = .error .notFound ∧
    get_blogpost (some ⟨[], []⟩) "nonexistent-slug" = .error .notFound :=
  ⟨(c3_get_blogpost_by_slug "nonexistent-slug" ⟨[], []⟩).2.1 (by decide),
   (c3_get_blogpost_by_slug "nonexistent-slug" ⟨[], []⟩).2.2 rfl⟩

/-- C1: for every valid `Message` input, `submit_contact` returns the
success acknowledgment when the store is absent and when a reachable store
accepts the insert; it raises a 500 exactly when a reachable store rejects
the insert. -/
theorem c1_submit_contact_success (raw : RawMessage) (m : Message)
    (db : Option Store) (s : Store) (rejects : Bool)
    (h : validateMessage raw = .ok m) :
    (submit_contact none rejects raw).1 = .success ∧
    (submit_contact (some s) false raw).1 = .success ∧
    ((submit_contact db rejects raw).1 = .serverError ↔
      (db ≠ none ∧ rejects = true)) := by
  refine ⟨?_, ?_, ?_⟩
  · simp [submit_contact, h]
  · simp [submit_contact, h]
  · cases db with
    | none => simp [submit_contact, h]
    | some s2 =>
      cases rejects with
      | false => simp [submit_contact, h]
      | true => simp [submit_contact, h]

/-- C1 witness: a concrete valid message over an absent store succeeds. -/
theorem c1_witness :
    (submit_contact none true
      ⟨some "Ada", some "ada@example.com", none, none, some "hi", none⟩).1
      = .success :=
  (c1_submit_contact_success
    ⟨some "Ada", some "ada@example.com", none, none, some "hi", none⟩
    ⟨"Ada", "ada@example.com", none, none, "hi", "website"⟩
    none ⟨[], []⟩ true rfl).1

/-- C5: for every invalid `Message` body, submission fails with a
`ValidationError` listing the offending fields, the store handle is
untouched, and no `create_document` call on the message collection is
attempted. -/
theorem c5_invalid_no_store_interaction (db : Option Store) (rejects : Bool)
    (raw : RawMessage) (fs : List String)
    (h : validateMessage raw = .error fs) :
    submit_contact db rejects raw = (.validationError fs, db, 0) := by
  simp [submit_contact, h]

/-- C5 witness: a body missing `name` is rejected with zero store calls. -/
theorem c5_witness :
    submit_contact (some ⟨[], []⟩) false
      ⟨none, some "ada@example.com", none, none, some "hi", none⟩
      = (.validationError ["name"], some ⟨[], []⟩, 0) :=
  c5_invalid_no_store_interaction (some ⟨[], []⟩) false
    ⟨none, some "ada@example.com", none, none, some "hi", none⟩ ["name"] rfl

theorem matchesQuery_unpublished {d : Doc} {q : List (String × Value)}
    (h : docLookup d "published" = some (.bool false))
    (hq : ("published", Value.bool true) ∈ q) :
    matchesQuery q d = false := by
  by_contra hc
  simp only [Bool.not_eq_false] at hc
  have hf := matchesQuery_mem _ hc hq
  rw [fieldMatches_bool hf] at h
  simp at h

theorem published_mem_buildQuery (tag : Option String) :
    ("published", Value.bool true) ∈ buildQuery tag := by
  cases tag with
  | none => simp [buildQuery]
  | some t =>
    by_cases h : (t == "") = true
    · simp [buildQuery, h]
    · simp only [buildQuery, Bool.not_eq_true] at *
      rw [if_neg (by simp_all)]
      simp

/-- C4: a stored blog-post document with `published = false` is never among
the documents selected by the list query nor returned by the single-post
lookup, for any tag and any slug. -/
theorem c4_unpublished_never_visible (s : Store) (d : Doc)
    (h : docLookup d "published" = some (.bool false)) :
    (∀ tag, d ∉ get_documents s "blogpost" (buildQuery tag) 50) ∧
    (∀ slug,
      find_one s "blogpost" [("slug", .str slug), ("published", .bool true)]
        ≠ some d) := by
  constructor
  · intro tag hmem
    unfold get_documents at hmem
    have hf := List.mem_filter.mp (List.mem_of_mem_take hmem)
    rw [matchesQuery_unpublished h (published_mem_buildQuery tag)] at hf
    exact absurd hf.2 (by simp)
  · intro slug hfind
    have hp := List.find?_some hfind
    rw [matchesQuery_unpublished h (by simp)] at hp
    exact absurd hp (by simp)

/-- C4 witness: a concrete unpublished document is invisible to both reads. -/
theorem c4_witness :
    [("published", Value.bool false)] ∉
      get_documents ⟨[[("published", Value.bool false)]], []⟩ "blogpost"
        (buildQuery none) 50 ∧
    find_one ⟨[[("published", Value.bool false)]], []⟩ "blogpost"
        [("slug", Value.str "a"), ("published", Value.bool true)]
      ≠ some [("published", Value.bool false)] :=
  ⟨(c4_unpublished_never_visible ⟨[[("published", Value.bool false)]], []⟩
      [("published", Value.bool false)] rfl).1 none,
   (c4_unpublished_never_visible ⟨[[("published", Value.bool false)]], []⟩
      [("published", Value.bool false)] rfl).2 "a"⟩

/-- C7: for every store behavior during seeding — store unavailable, count
query failing, any insert rejected — `seed_sample_blogposts` never lets an
exception escape to its caller. -/
theorem c7_seed_never_raises (beh : SeedBehavior) (now : Nat)
    (db : Option Store) :
    (seed_sample_blogposts beh now db).2 = false := by
  cases db with
  | none => rfl
  | some s =>
    unfold seed_sample_blogposts
    by_cases h1 : beh.countFails
    · simp [h1]
    · by_cases h2 : (s.blogpost.length == 0) = true
      · simp [h1, h2]
      · simp [h1, h2]

/-- C6: seeding over a fully working store is idempotent — a nonzero count
means no insert happens, an empty blog-post collection receives exactly the
two fixture posts (both `published = true`), and running the seeder twice in
sequence equals running it once. -/
theorem c6_seeder_idempotent (s sE : Store) (now now2 : Nat)
    (db : Option Store) (hne : s.blogpost ≠ []) (hE : sE.blogpost = []) :
    (seed_sample_blogposts okBehavior now (some s)).1 = some s ∧
    (∃ s2, (seed_sample_blogposts okBehavior now (some sE)).1 = some s2 ∧
      s2.blogpost.length = 2 ∧
      ∀ d ∈ s2.blogpost, docLookup d "published" = some (.bool true)) ∧
    (seed_sample_blogposts okBehavior now2
        (seed_sample_blogposts okBehavior now db).1).1
      = (seed_sample_blogposts okBehavior now db).1 := by
  have hseedE : ∀ (sx : Store), sx.blogpost = [] →
      (seed_sample_blogposts okBehavior now (some sx)).1
        = some { sx with blogpost := sampleSeedDocs now } := by
    intro sx hx
    simp [seed_sample_blogposts, okBehavior, hx, insertSeedLoop,
      sampleSeedDocs, create_document]
  have hseedN : ∀ (nw : Nat) (sx : Store), sx.blogpost ≠ [] →
      (seed_sample_blogposts okBehavior nw (some sx)).1 = some sx := by
    intro nw sx hx
    have hlen : (sx.blogpost.length == 0) = false := by
      simp [List.length_eq_zero, hx]
    simp [seed_sample_blogposts, okBehavior, hlen]
  refine ⟨hseedN now s hne, ?_, ?_⟩
  · refine ⟨{ sE with blogpost := sampleSeedDocs now }, hseedE sE hE, ?_, ?_⟩
    · simp [sampleSeedDocs]
    · intro d hd
      simp only [sampleSeedDocs, List.mem_cons, List.not_mem_nil, or_false] at hd
      rcases hd with h | h <;> subst h <;> rfl
  · cases db with
    | none => rfl
    | some s3 =>
      by_cases h3 : s3.blogpost = []
      · rw [hseedE s3 h3]
        exact hseedN now2 _ (by simp [sampleSeedDocs])
      · rw [hseedN now s3 h3]
        exact hseedN now2 s3 h3

/-- C6 witness: concrete nonempty and empty stores. -/
theorem c6_witness :
    (seed_sample_blogposts okBehavior 0
        (some ⟨[[("published", Value.bool true)]], []⟩)).1
      = some ⟨[[("published", Value.bool true)]], []⟩ ∧
    ∃ s2, (seed_sample_blogposts okBehavior 0 (some ⟨[], []⟩)).1 = some s2 ∧
      s2.blogpost.length = 2 ∧
      ∀ d ∈ s2.blogpost, docLookup d "published" = some (.bool true) := by
  have h := c6_seeder_idempotent ⟨[[("published", Value.bool true)]], []⟩
    ⟨[], []⟩ 0 0 none (by simp) rfl
  exact ⟨h.1, h.2.1⟩

/-- C8: the store-document-to-output mapping drops every document field
outside the declared `BlogPostOut` schema (adding such a field changes
nothing) and carries over `created_at` / `updated_at` exactly when they are
present in the document. -/
theorem c8_mapping_projection (d : Doc) (k : String) (v : Value)
    (o : BlogPostOut) (hk : blogPostOutFields.contains k = false) :
    toOut ((k, v) :: d) = toOut d ∧
    (toOut d = some o →
      (∀ t, docLookup d "created_at" = some (.time t) → o.created_at = some t) ∧
      (docLookup d "created_at" = none → o.created_at = none) ∧
      (∀ t, docLookup d "updated_at" = some (.time t) → o.updated_at = some t) ∧
      (docLookup d "updated_at" = none → o.updated_at = none)) := by
  constructor
  · have hcons : ∀ f, blogPostOutFields.contains f = true →
        docLookup ((k, v) :: d) f = docLookup d f := by
      intro f hf
      have hkf : (k == f) = false := by
        rw [beq_eq_false_iff_ne]
        intro he
        subst he
        rw [hf] at hk
        exact absurd hk (by simp)
      simp [docLookup, hkf]
    rw [toOut_eq_parse, toOut_eq_parse]
    unfold parseBlogPostOut
    rw [hcons "title" (by decide), hcons "slug" (by decide),
      hcons "excerpt" (by decide), hcons "content" (by decide),
      hcons "cover_image" (by decide), hcons "tags" (by decide),
      hcons "published" (by decide), hcons "published_at" (by decide),
      hcons "created_at" (by decide), hcons "updated_at" (by decide)]
  · intro h
    rw [toOut_eq_parse] at h
    obtain ⟨-, -, hca, hua⟩ := parse_some_fields h
    refine ⟨?_, ?_, ?_, ?_⟩
    · intro t hct
      rw [hct] at hca
      simpa [asOptTime] using hca.symm
    · intro hct
      rw [hct] at hca
      simpa [asOptTime] using hca.symm
    · intro t hut
      rw [hut] at hua
      simpa [asOptTime] using hua.symm
    · intro hut
      rw [hut] at hua
      simpa [asOptTime] using hua.symm

/-- C8 witness: a concrete document with an extra field and a present
`created_at`. -/
theorem c8_witness :
    toOut (("junk", Value.str "j") ::
      [("title", Value.str "T"), ("slug", Value.str "s"),
       ("content", Value.str "c"), ("created_at", Value.time 5)])
      = toOut [("title", Value.str "T"), ("slug", Value.str "s"),
       ("content", Value.str "c"), ("created_at", Value.time 5)] ∧
    ({ title := "T", slug := "s", content := "c",
       created_at := some 5 : BlogPostOut }).created_at = some 5 := by
  have h := c8_mapping_projection
    [("title", Value.str "T"), ("slug", Value.str "s"),
     ("content", Value.str "c"), ("created_at", Value.time 5)]
    "junk" (Value.str "j")
    { title := "T", slug := "s", content := "c", created_at := some 5 }
    (by decide)
  exact ⟨h.1, (h.2 rfl).1 5 rfl⟩

/-- C2 counterexample: in store-unavailable mode a call with the tag filter
`nutrition` still returns the hardcoded sample post, whose tag sequence does
not contain `nutrition` — so the filter property does not hold in both
modes. Moreover, even in store-available mode the empty-string tag filter is
falsy and is not applied: a published post with no tags is returned although
its tag sequence does not contain `""`. -/
theorem c2_counterexample :
    (list_blogposts none (some "nutrition") = .ok [sampleBlogPostList] ∧
      sampleBlogPostList.tags.contains "nutrition" = false) ∧
    (list_blogposts
        (some ⟨[[("title", Value.str "T"), ("slug", Value.str "t"),
                 ("content", Value.str "c"),
                 ("published", Value.bool true)]], []⟩)
        (some "")
      = .ok [{ title := "T", slug := "t", content := "c" }] ∧
      ({ title := "T", slug := "t", content := "c" : BlogPostOut }).tags.contains ""
        = false) :=
  ⟨⟨rfl, rfl⟩, ⟨rfl, rfl⟩⟩

/-- C2 (amended): in store-available mode, a call with a non-empty tag
filter returns only posts whose tag sequence contains the exact tag value,
a call with the filter omitted returns the published posts capped at 50,
all with `published = true`, and an empty-string tag behaves as no filter;
in store-unavailable mode the single hardcoded sample post is returned
regardless of the filter. -/
theorem c2_list_blogposts (s : Store) (t : String) (tag : Option String)
    (outs outs2 : List BlogPostOut) (ht : t ≠ "") :
    (list_blogposts (some s) (some t) = .ok outs →
      ∀ o ∈ outs, o.tags.contains t = true) ∧
    (list_blogposts (some s) none = .ok outs2 →
      outs2.length =
        min 50 ((s.blogpost.filter
          (matchesQuery [("published", .bool true)])).length) ∧
      ∀ o ∈ outs2, o.published = true) ∧
    list_blogposts (some s) (some "") = list_blogposts (some s) none ∧
    list_blogposts none tag = .ok [sampleBlogPostList] := by
  have hcd : collectionDocs s "blogpost" = s.blogpost := rfl
  refine ⟨?_, ?_, rfl, rfl⟩
  · intro h o ho
    have hm := list_blogposts_ok h
    obtain ⟨d, hd, hout⟩ := mapDocs_mem hm ho
    unfold get_documents at hd
    have hq := (List.mem_filter.mp (List.mem_of_mem_take hd)).2
    have htne : (t == "") = false := beq_eq_false_iff_ne.mpr ht
    have htags : fieldMatches d "tags" (.str t) = true :=
      matchesQuery_mem ("tags", Value.str t) hq
        (by simp [buildQuery, htne])
    rw [toOut_eq_parse] at hout
    obtain ⟨htg, -, -, -⟩ := parse_some_fields hout
    rcases fieldMatches_str htags with hw | ⟨l, hw, hcont⟩
    · rw [hw] at htg
      simp [asTags] at htg
    · rw [hw] at htg
      simp only [asTags, Option.some.injEq] at htg
      rw [← htg]
      exact hcont
  · intro h
    have hm := list_blogposts_ok h
    constructor
    · have hlen := mapDocs_length hm
      unfold get_documents at hlen
      rw [List.length_take] at hlen
      rw [hcd] at hlen
      exact hlen
    · intro o ho
      obtain ⟨d, hd, hout⟩ := mapDocs_mem hm ho
      unfold get_documents at hd
      have hq := (List.mem_filter.mp (List.mem_of_mem_take hd)).2
      have hpub := fieldMatches_bool
        (matchesQuery_mem ("published", Value.bool true) hq
          (by simp [buildQuery]))
      rw [toOut_eq_parse] at hout
      obtain ⟨-, hpb, -, -⟩ := parse_some_fields hout
      rw [hpub] at hpb
      simpa [asPub] using hpb.symm

/-- C2 witness: a concrete store with one matching published post. -/
theorem c2_witness :
    ({ title := "T", slug := "t", content := "c", tags := ["x"],
       published := true : BlogPostOut }).tags.contains "x" = true :=
  (c2_list_blogposts
    ⟨[[("title", Value.str "T"), ("slug", Value.str "t"),
       ("content", Value.str "c"), ("published", Value.bool true),
       ("tags", Value.strList ["x"])]], []⟩
    "x" none
    [{ title := "T", slug := "t", content := "c", tags := ["x"],
       published := true }]
    [{ title := "T", slug := "t", content := "c", tags := ["x"],
       published := true }]
    (by decide)).1 rfl
    { title := "T", slug := "t", content := "c", tags := ["x"],
      published := true }
    (by simp)
